import Mathlib

/-!
Verification development for the per-call session coordinator of the
twilio-rx-assistant repository (Cloudflare Workers backend).

The embedding models, faithfully to the TypeScript source:
  * the hold-music service (do-server copy of `HoldMusicService`,
    `src/do-server/src/sessionManager.ts`, second document: `startHoldMusic`,
    `streamAudioChunks`, `stopHoldMusic`, `resetHoldMusicState`);
  * the session coordinator (`SessionManager` Durable Object; primarily the
    copy embedded in `src/do-server/src/index.ts` lines 828-1719, which is the
    revision with activity tracking; the older copy in
    `src/do-server/src/sessionManager.ts` lines 1-523 is identical for every
    function modelled here except `handleFrontendConnection`, which is
    modelled separately as `handleFrontendConnectionLegacy`);
  * the function dispatch table (`src/do-server/src/functionHandlers.ts`);
  * the incoming-call masking logic (`src/do-server/src/index.ts`,
    `handleIncomingCall`).

Modelling conventions:
  * connection identifiers (random strings in the source) are `Nat`;
  * the `websockets` map is a function `Nat → Option Sock`;
  * JavaScript `undefined` is `Option.none`; string truthiness (`!x` is true
    for `undefined` and for the empty string) is modelled explicitly;
  * external effects (the R2 asset store, `JSON.parse`, the OpenAI dial via
    `fetch`) are parameters of the functions that invoke them;
  * timers: `intervalId` models the stored handle field, `pendingTick` is a
    ghost flag that is true exactly while a `setTimeout` callback is
    scheduled and not yet fired.
-/

namespace TwilioRx

/-- JSON-like values, used for session-configuration objects, tool schemas
and conversation items that the coordinator builds as JS object literals. -/
inductive JVal where
  | null
  | bool (b : Bool)
  | num (n : Int)
  | str (s : String)
  | arr (xs : List JVal)
  | obj (fields : List (String × JVal))

/-- Lookup in an association-list object with JavaScript spread semantics:
the LAST binding of a key wins, as in an object literal built from spreads. -/
def objGet : List (String × JVal) → String → Option JVal
  | [], _ => none
  | (k, v) :: rest, key =>
      match objGet rest key with
      | some r => some r
      | none => if k = key then some v else none

/-- JavaScript truthiness of an optional string: `undefined` and the empty
string are falsy, everything else is truthy. -/
def strTruthy (o : Option String) : Bool := o.getD "" != ""

/-- Base64 alphabet used by `btoa`. -/
def b64Alphabet : List Char :=
  "ABCDEFGHIJKLMNOPQRSTUVWXYZabcdefghijklmnopqrstuvwxyz0123456789+/".toList

/-- Character of the base64 alphabet at a 6-bit index. -/
def b64Char (n : Nat) : Char := b64Alphabet.getD n 'A'

/-- Base64 encoding of a byte list, as computed by `arrayBufferToBase64`
(which builds a latin-1 string from the bytes and calls `btoa`). -/
def base64Encode : List Nat → List Char
  | [] => []
  | [a] => [b64Char (a / 4), b64Char (a % 4 * 16), '=', '=']
  | [a, b] => [b64Char (a / 4), b64Char (a % 4 * 16 + b / 16), b64Char (b % 16 * 4), '=']
  | a :: b :: c :: rest =>
      [b64Char (a / 4), b64Char (a % 4 * 16 + b / 16), b64Char (b % 16 * 4 + c / 64),
       b64Char (c % 64)] ++ base64Encode rest

/-! ### Hold-music service (do-server copy) -/

/-- Named-track table `HOLD_MUSIC_CONFIG.alternatives`. -/
def holdMusicAlternatives : List (String × String) :=
  [("classical", "classical.raw"), ("jazz", "jazz.raw"),
   ("ambient", "ambient.raw"), ("breakaway", "breakaway.mp3")]

/-- Default hold-music asset name `HOLD_MUSIC_CONFIG.defaultAudioFile`. -/
def defaultAudioFile : String := "hold-music.raw"

/-- File-name resolution performed by `startHoldMusic`: no requested type
uses the default; a known alternative maps through the table; anything else
is treated as a custom file name. -/
def resolveFileName (holdMusicType : Option String) : String :=
  match holdMusicType with
  | none => defaultAudioFile
  | some t =>
      match holdMusicAlternatives.find? (fun p => p.1 == t) with
      | some p => p.2
      | none => t

/-- Synthesized fallback buffer from `generateHoldMusicAudio`:
`sampleRate * duration = 8000 * 2 = 16000` bytes.  The individual byte values
come from a floating-point sine wave clamped into 0..255 and are not
modelled (no property here depends on them); the byte COUNT is faithful. -/
def generateHoldMusicAudio : List Nat := List.replicate (8000 * 2) 128

/-- Buffer selection chain of `startHoldMusic`: try the resolved file in the
asset store, then (for a named-but-missing custom track) the default file,
then the synthesized tone.  `r2get` stands for the external R2 bucket.
NOTE: an EMPTY stored object passes the JS `if (!audioBuffer)` check (an
ArrayBuffer is always truthy), so `some []` is used as-is, exactly as in the
source. -/
def resolveBuffer (r2get : String → Option (List Nat)) (holdMusicType : Option String) :
    List Nat :=
  let fileName := resolveFileName holdMusicType
  let audioBuffer := r2get fileName
  let audioBuffer :=
    match audioBuffer with
    | some b => some b
    | none =>
        if holdMusicType.isSome && fileName != defaultAudioFile then r2get defaultAudioFile
        else none
  match audioBuffer with
  | some b => b
  | none => generateHoldMusicAudio

/-- State of the hold-music service (`HoldMusicState` plus the closure-local
`position` of `streamAudioChunks` and the ghost scheduling flag). -/
structure HMState where
  isPlaying : Bool := false
  audioBuffer : Option (List Nat) := none
  intervalId : Option Nat := none
  position : Nat := 0
  pendingTick : Bool := false
  nextTimerId : Nat := 0
deriving DecidableEq

/-- One firing of the `streamInterval` callback inside `streamAudioChunks`
(do-server copy, which uses chained `setTimeout`).  Returns the new state and
the emitted chunk, if any.  Mirrors the source exactly: a partial chunk of
`min 160 remaining` bytes is emitted when fewer than 160 bytes remain, and
the wrap branch (`chunkLength === 0`) resets the position and RETURNS without
scheduling another timeout. -/
def streamAudioChunksTick (st : HMState) : HMState × Option (List Nat) :=
  let st := { st with pendingTick := false }
  if !st.isPlaying then (st, none)
  else
    match st.audioBuffer with
    | none => (st, none)
    | some buf =>
        let remainingBytes := buf.length - st.position
        let chunkLength := min 160 remainingBytes
        if chunkLength = 0 then
          ({ st with position := 0 }, none)
        else
          let chunk := (buf.drop st.position).take chunkLength
          let st := { st with position := st.position + chunkLength }
          let st :=
            if st.isPlaying then
              { st with intervalId := some st.nextTimerId,
                        nextTimerId := st.nextTimerId + 1, pendingTick := true }
            else st
          (st, some chunk)

/-- The `startHoldMusic` operation.  Returns the new state, the chunks
emitted synchronously (the first `streamInterval()` call runs immediately),
and the boolean result.  `position` is a fresh closure variable in the
source, hence reset to 0 here. -/
def startHoldMusic (r2get : String → Option (List Nat)) (holdMusicType : Option String)
    (st : HMState) : HMState × List (List Nat) × Bool :=
  if st.isPlaying then (st, [], true)
  else
    let buf := resolveBuffer r2get holdMusicType
    let st := { st with audioBuffer := some buf, isPlaying := true, position := 0 }
    let r := streamAudioChunksTick st
    (r.1, r.2.toList, true)

/-- The `stopHoldMusic` operation: clears the timeout if a handle is stored,
then clears `isPlaying` and drops the buffer. -/
def stopHoldMusic (st : HMState) : HMState × Bool :=
  if !st.isPlaying then (st, true)
  else
    let st :=
      if st.intervalId.isSome then { st with intervalId := none, pendingTick := false } else st
    ({ st with isPlaying := false, audioBuffer := none }, true)

/-- The `resetHoldMusicState` operation (unconditional hard stop). -/
def resetHoldMusicState (st : HMState) : HMState :=
  let st :=
    if st.intervalId.isSome then { st with intervalId := none, pendingTick := false } else st
  { st with isPlaying := false, audioBuffer := none }

/-- The `isHoldMusicPlaying` accessor. -/
def isHoldMusicPlaying (st : HMState) : Bool := st.isPlaying

/-- Reachability for the hold-music service under an arbitrary interleaving
of starts, timer fires, stops and resets.  A tick may fire only while a
callback is actually scheduled.  The predicate `P` constrains the buffer
resolved by each start (instantiated with `fun _ => True` for full
generality, or with nonemptiness for the corrected invariant). -/
inductive HMReach (P : List Nat → Prop) : HMState → Prop where
  | init : HMReach P {}
  | start {st} (r2get : String → Option (List Nat)) (t : Option String) :
      HMReach P st → P (resolveBuffer r2get t) → HMReach P (startHoldMusic r2get t st).1
  | tick {st} : HMReach P st → st.pendingTick = true → HMReach P (streamAudioChunksTick st).1
  | stop {st} : HMReach P st → HMReach P (stopHoldMusic st).1
  | reset {st} : HMReach P st → HMReach P (resetHoldMusicState st)

/-! ### Session coordinator data model -/

/-- Role under which a socket was registered (the path class `call`/`logs`
for peer sockets, `model` for the OpenAI leg). -/
inductive Role where
  | call
  | logs
  | model
deriving DecidableEq

/-- Socket readiness.  The source only ever tests `readyState ===
READY_STATE_OPEN`; calling `close()` is modelled as moving directly to
`closed` (CLOSING and CLOSED are indistinguishable to the coordinator). -/
inductive ReadyState where
  | connecting
  | opened
  | closed
deriving DecidableEq

/-- An entry of the `websockets` map. -/
structure Sock where
  role : Role
  ready : ReadyState
deriving DecidableEq

/-- The `websockets : Map string WebSocket` table, keyed by connection id. -/
abbrev WsMap := Nat → Option Sock

/-- Map insertion (`websockets.set`). -/
def wsSet (m : WsMap) (k : Nat) (v : Sock) : WsMap :=
  fun i => if i = k then some v else m i

/-- Map removal (`websockets.delete`). -/
def wsDelete (m : WsMap) (k : Nat) : WsMap :=
  fun i => if i = k then none else m i

/-- Calling `close()` on the socket stored under `k`, if present. -/
def wsCloseOne (m : WsMap) (k : Nat) : WsMap :=
  fun i => if i = k then (m k).map (fun s => { s with ready := ReadyState.closed }) else m i

/-- The `Session` record of `types.ts` (fields absent in JS are `none`). -/
structure Session where
  twilioConnId : Option Nat := none
  frontendConnId : Option Nat := none
  modelConnId : Option Nat := none
  config : Option (List (String × JVal)) := none
  streamSid : Option String := none
  callSid : Option String := none
  lastAssistantItem : Option String := none
  responseStartTimestamp : Option Int := none
  latestMediaTimestamp : Option Int := none
  openAIApiKey : Option String := none

/-- Full coordinator state: the session record, the socket table, the ids of
model sockets whose `open` listener has not yet fired (they are NOT in the
table until it does), and the hold-music service state. -/
structure CoordState where
  session : Session := {}
  sockets : WsMap := fun _ => none
  pendingModelOpen : List Nat := []
  hm : HMState := {}

/-- Test used throughout the source: the referenced socket exists in the
table and its ready state is OPEN. -/
def isWsOpen (st : CoordState) (o : Option Nat) : Bool :=
  match o with
  | none => false
  | some i =>
      match st.sockets i with
      | some s => s.ready == ReadyState.opened
      | none => false

/-- Messages the coordinator sends to the model leg (the JSON literals of
the source, rendered structurally; `truncate` carries `item_id`,
`content_index` and `audio_end_ms`). -/
inductive ModelOut where
  | inputAudioAppend (audio : String)
  | sessionUpdate (session : List (String × JVal))
  | conversationItemCreate (item : JVal)
  | truncate (itemId : String) (contentIndex : Nat) (audioEnd : Int)
  | responseCreate

/-- Messages the coordinator sends to the telephony leg. -/
inductive TwilioOut where
  | media (streamSid : String) (payload : String)
  | mark (streamSid : String)
  | clear (streamSid : String)

/-- The function-call output item (`response.output_item.done` payload);
`args` is the raw `arguments` string. -/
structure FnCallItem where
  itemType : String
  name : String
  args : String
  callId : Option String

/-- Events received from the model leg, tagged as in the source switch. -/
inductive ModelEvent where
  | sessionCreated
  | speechStarted
  | audioDelta (itemId : Option String) (delta : String)
  | outputItemDone (item : FnCallItem)
  | itemCreated
  | transcriptionCompleted
  | contentPartAdded
  | transcriptDelta
  | otherEvent (ty : String)

/-- The `event.type` string of a model event. -/
def ModelEvent.eventType : ModelEvent → String
  | .sessionCreated => "session.created"
  | .speechStarted => "input_audio_buffer.speech_started"
  | .audioDelta _ _ => "response.audio.delta"
  | .outputItemDone _ => "response.output_item.done"
  | .itemCreated => "conversation.item.created"
  | .transcriptionCompleted => "conversation.item.input_audio_transcription.completed"
  | .contentPartAdded => "response.content_part.added"
  | .transcriptDelta => "response.audio_transcript.delta"
  | .otherEvent ty => ty

/-- The broadcast allow-list check `shouldBroadcastToFrontends`. -/
def shouldBroadcastToFrontends (e : ModelEvent) : Bool :=
  ["session.created", "input_audio_buffer.speech_started", "conversation.item.created",
   "conversation.item.input_audio_transcription.completed", "response.content_part.added",
   "response.audio_transcript.delta", "response.output_item.done"].contains e.eventType

/-- A registered function schema (`FunctionSchema` of `types.ts`;
`schemaType` is the JS field `type`, always the literal string
`"function"`). -/
structure FunctionSchema where
  name : String
  schemaType : String
  description : String
  parameters : JVal

/-- The schema as the JSON object sent inside the tool list. -/
def FunctionSchema.toJVal (s : FunctionSchema) : JVal :=
  .obj [("name", .str s.name), ("type", .str s.schemaType),
        ("description", .str s.description), ("parameters", s.parameters)]

/-- A dispatch-table entry: schema plus asynchronous handler.  The handler
returns a string on success; `Except.error` models a thrown error or a
rejected promise. -/
structure FnDef where
  schema : FunctionSchema
  handler : JVal → Except Unit String

/-- Result of `JSON.stringify` on the mock prescription record returned by
the one registered handler (insertion order preserved). -/
def rosiePrescriptionJson : String :=
  "\x7b\"patient\":\"Rosie\",\"patient_type\":\"animal\",\"species\":\"dog\",\"medication\":\"Simparica-Trio\",\"dosage\":\"30mg\",\"dosage_form\":\"tablet\",\"cost\":\"$100\",\"status\":\"Ready for pickup\",\"prescribing_by\":\"Forbin\x27s Veterinary Clinic\",\"prescription_date\":\"2024-01-15\",\"expiry_date\":\"2025-01-15\",\"prescribing_vet\":\"Dr. Suzy Greenberg\",\"refills_remaining\":3,\"note\":\"May give with treats\"\x7d"

/-- Schema of the single registered function in `functionHandlers.ts`. -/
def fetchPrescriptionSchema : FunctionSchema :=
  { name := "fetch_prescription_status_for_rosie"
    schemaType := "function"
    description := "Fetch prescription status for Rosie (demo patient)"
    parameters := .obj [("type", .str "object"), ("properties", .obj []),
                        ("required", .arr [])] }

/-- The concrete dispatch table exported by `functionHandlers.ts`.  The
handler is total: it returns the fixed JSON string for any argument. -/
def functionsTable : List FnDef :=
  [{ schema := fetchPrescriptionSchema, handler := fun _ => .ok rosiePrescriptionJson }]

/-- JSON escaping of one character as performed by `JSON.stringify` on the
characters that actually occur in handler results (quote and backslash; the
source strings contain no control characters). -/
def jsonEscapeChar (c : Char) : List Char :=
  if c = '"' then ['\\', '"'] else if c = '\\' then ['\\', '\\'] else [c]

/-- The `JSON.stringify` of a plain string (the coordinator re-stringifies
the handler result when building the `function_call_output` item). -/
def jsonStringifyString (s : String) : String :=
  "\"" ++ String.mk (s.toList.map jsonEscapeChar).flatten ++ "\""

/-! ### Session configuration merge (session.created handshake) -/

/-- The fixed defaults of the `session.update` literal sent on
`session.created` (index.ts coordinator copy; the older copy differs only in
the default voice string, which no claim depends on). -/
def sessionDefaults : List (String × JVal) :=
  [("modalities", .arr [.str "text", .str "audio"]),
   ("turn_detection", .obj [("type", .str "server_vad")]),
   ("voice", .str "sage"),
   ("input_audio_transcription", .obj [("model", .str "whisper-1")]),
   ("input_audio_format", .str "g711_ulaw"),
   ("output_audio_format", .str "g711_ulaw")]

/-- The tools found in the stored config, `config.tools || []`.  Absent,
null or false yields the empty list; when present the value is an array of
tool schemas (a non-array, non-falsy value would make the source throw at
the array spread, so such inputs are outside the model). -/
def frontendTools (config : List (String × JVal)) : List JVal :=
  match objGet config "tools" with
  | some (.arr xs) => xs
  | _ => []

/-- The built-in tool list `functions.map(f => f.schema)`; `fns` stands for
the table imported from `functionHandlers.ts`, whose concrete value is
`functionsTable`. -/
def backendTools (fns : List FnDef) : List JVal :=
  fns.map (fun f => f.schema.toJVal)

/-- The forced tool union `[...backendTools, ...frontendTools]`. -/
def allTools (fns : List FnDef) (config : List (String × JVal)) : List JVal :=
  backendTools fns ++ frontendTools config

/-- The session object of the `session.update` message: defaults, spread of
the stored config, then the forced `tools` key.  JS object spread keeps the
last binding of each key; `objGet` implements exactly that, so the
association list may carry shadowed earlier bindings without changing any
observable lookup. -/
def mergedSessionObj (fns : List FnDef) (config : List (String × JVal)) :
    List (String × JVal) :=
  sessionDefaults ++ config ++ [("tools", .arr (allTools fns config))]

/-- Greeting instruction text (index.ts coordinator copy). -/
def greetingText : String :=
  "When the call starts, greet the caller by saying \x27Thank you for calling Fluffhead Pharmacy, where our intent is all for your delight. This is the pharmacist speaking, how may I assist you today?\x27"

/-- The fixed system greeting item of the `conversation.item.create` sent
after the merged configuration. -/
def greetingItem : JVal :=
  .obj [("type", .str "message"), ("role", .str "system"),
        ("content", .arr [.obj [("type", .str "input_text"), ("text", .str greetingText)]])]

/-! ### Coordinator operations -/

/-- Result of one coordinator step: the new state plus everything sent on
each leg.  `threw` records an error escaping the handler (before the
enclosing message-listener catch). -/
structure StepOut where
  state : CoordState
  toModel : List ModelOut := []
  toTwilio : List TwilioOut := []
  toFrontend : List ModelEvent := []
  broadcast : List ModelEvent := []
  threw : Bool := false

/-- The `sendAudioToStream` sink: forwards one hold-music chunk to the
telephony leg as a base64 media frame, when a telephony leg with a stream id
is tracked and open. -/
def sendAudioToStream (st : CoordState) (chunk : List Nat) : List TwilioOut :=
  match st.session.twilioConnId, st.session.streamSid with
  | some tid, some sid =>
      if sid != "" && isWsOpen st (some tid) then
        [TwilioOut.media sid (String.mk (base64Encode chunk))]
      else []
  | _, _ => []

/-- The `handleTruncation` barge-in protocol.  The guard is the source
falsiness test: `!lastAssistantItem` (undefined or empty string) or
`responseStartTimestamp === undefined`. -/
def handleTruncation (st : CoordState) : StepOut :=
  if st.session.lastAssistantItem.getD "" == "" || st.session.responseStartTimestamp.isNone then
    { state := st }
  else
    let lastItem := st.session.lastAssistantItem.getD ""
    let elapsedMs := st.session.latestMediaTimestamp.getD 0 - st.session.responseStartTimestamp.getD 0
    let audioEnd := if elapsedMs > 0 then elapsedMs else 0
    let mOuts :=
      if isWsOpen st st.session.modelConnId then [ModelOut.truncate lastItem 0 audioEnd] else []
    let tOuts :=
      match st.session.twilioConnId, st.session.streamSid with
      | some tid, some sid =>
          if sid != "" && isWsOpen st (some tid) then [TwilioOut.clear sid] else []
      | _, _ => []
    let sess := { st.session with lastAssistantItem := none, responseStartTimestamp := none }
    { state := { st with session := sess }, toModel := mOuts, toTwilio := tOuts }

/-- How a single function-call dispatch ended. -/
inductive FnOutcome where
  | notFound
  | badArgs
  | handlerFailed
  | completed
deriving DecidableEq

/-- Result of `handleFunctionCall`. -/
structure FnStepOut where
  state : CoordState
  toModel : List ModelOut := []
  outcome : FnOutcome

/-- The conditional stop `if (isHoldMusicPlaying()) stopHoldMusic()` used in
both the success and the catch branch of `handleFunctionCall`. -/
def stopHoldMusicIfPlaying (st : CoordState) : CoordState :=
  if isHoldMusicPlaying st.hm then { st with hm := (stopHoldMusic st.hm).1 } else st

/-- The `handleFunctionCall` dispatch.  `parseArgs` stands for the
`JSON.parse` builtin (`none` models a parse exception).  Control flow is the
source order: unknown name throws immediately (`notFound`, nothing stopped,
nothing sent); a parse failure is caught and returns (`badArgs`, nothing
stopped, nothing sent); a successful handler stops hold music and sends the
`function_call_output` item plus `response.create` when the model leg is
open; a throwing handler is caught and stops hold music only. -/
def handleFunctionCall (fns : List FnDef) (parseArgs : String → Option JVal)
    (st : CoordState) (item : FnCallItem) : FnStepOut :=
  match fns.find? (fun f => f.schema.name == item.name) with
  | none => { state := st, outcome := .notFound }
  | some fnDef =>
      match parseArgs item.args with
      | none => { state := st, outcome := .badArgs }
      | some args =>
          match fnDef.handler args with
          | .ok result =>
              let st := stopHoldMusicIfPlaying st
              let mOuts :=
                if isWsOpen st st.session.modelConnId then
                  [ModelOut.conversationItemCreate
                     (.obj ([("type", JVal.str "function_call_output")] ++
                        (match item.callId with
                         | some c => [("call_id", JVal.str c)]
                         | none => []) ++
                        [("output", JVal.str (jsonStringifyString result))])),
                   ModelOut.responseCreate]
                else []
              { state := st, toModel := mOuts, outcome := .completed }
          | .error _ => { state := stopHoldMusicIfPlaying st, outcome := .handlerFailed }

/-- The `handleModelMessage` dispatch.  First forwards the event to the
tracked frontend connection if open and flags it for cross-session broadcast
if allow-listed, then switches on the event type.  On
`response.output_item.done` for a function-call item, hold music is started
(when not already playing) with its synchronously emitted chunks routed
through `sendAudioToStream`, and the call is dispatched; a `notFound` throw
escapes (recorded in `threw`) with all mutations up to that point kept. -/
def handleModelMessage (fns : List FnDef) (parseArgs : String → Option JVal)
    (r2get : String → Option (List Nat)) (st : CoordState) (e : ModelEvent) : StepOut :=
  let fwd := if st.session.frontendConnId.isSome && isWsOpen st st.session.frontendConnId
    then [e] else []
  let bc := if shouldBroadcastToFrontends e then [e] else []
  match e with
  | .sessionCreated =>
      let config := st.session.config.getD []
      if st.session.modelConnId.isSome && isWsOpen st st.session.modelConnId then
        { state := st,
          toModel := [ModelOut.sessionUpdate (mergedSessionObj fns config),
                      ModelOut.conversationItemCreate greetingItem,
                      ModelOut.responseCreate],
          toFrontend := fwd, broadcast := bc }
      else { state := st, toFrontend := fwd, broadcast := bc }
  | .speechStarted =>
      let r := handleTruncation st
      { r with toFrontend := fwd, broadcast := bc }
  | .audioDelta itemId delta =>
      match st.session.twilioConnId, st.session.streamSid with
      | some tid, some sid =>
          if sid != "" then
            let sess := st.session
            let sess :=
              if sess.responseStartTimestamp.isNone then
                { sess with responseStartTimestamp := some (sess.latestMediaTimestamp.getD 0) }
              else sess
            let sess :=
              if itemId.getD "" != "" then { sess with lastAssistantItem := itemId } else sess
            let st := { st with session := sess }
            let tOuts :=
              if isWsOpen st (some tid) then [TwilioOut.media sid delta, TwilioOut.mark sid]
              else []
            { state := st, toTwilio := tOuts, toFrontend := fwd, broadcast := bc }
          else { state := st, toFrontend := fwd, broadcast := bc }
      | _, _ => { state := st, toFrontend := fwd, broadcast := bc }
  | .outputItemDone item =>
      if item.itemType == "function_call" then
        let started :=
          if !isHoldMusicPlaying st.hm then
            let r := startHoldMusic r2get none st.hm
            ({ st with hm := r.1 }, r.2.1)
          else (st, [])
        let st1 := started.1
        let holdOuts := (started.2.map (fun c => sendAudioToStream st1 c)).flatten
        let r := handleFunctionCall fns parseArgs st1 item
        { state := r.state, toModel := r.toModel, toTwilio := holdOuts,
          toFrontend := fwd, broadcast := bc, threw := r.outcome == .notFound }
      else { state := st, toFrontend := fwd, broadcast := bc }
  | _ => { state := st, toFrontend := fwd, broadcast := bc }

/-- The model-socket message listener: `JSON.parse` failure (`none`) is
caught and logged; any error thrown by `handleModelMessage` is caught by the
same try/catch, so the session survives with all mutations kept. -/
def onModelWsMessage (fns : List FnDef) (parseArgs : String → Option JVal)
    (r2get : String → Option (List Nat)) (st : CoordState) (raw : Option ModelEvent) :
    StepOut :=
  match raw with
  | none => { state := st }
  | some e =>
      let r := handleModelMessage fns parseArgs r2get st e
      { r with threw := false }

/-! ### Connection registration, model dial and lifecycle -/

/-- Outcome of the `fetch`-based dial to the OpenAI realtime endpoint:
the request failed (or returned no socket), or it yielded an accepted socket
that is either already OPEN or still connecting (in which case the source
only registers it in the table from the `open` listener). -/
inductive DialOutcome where
  | failed
  | socket (opensNow : Bool)
deriving DecidableEq

/-- The `tryConnectModel` operation; `newId` is the fresh connection id
generated for the new socket. -/
def tryConnectModel (st : CoordState) (newId : Nat) (outcome : DialOutcome) : CoordState :=
  if !(st.session.twilioConnId.isSome && strTruthy st.session.streamSid &&
       strTruthy st.session.openAIApiKey) then st
  else if (match st.session.modelConnId with
           | some m => isWsOpen st (some m)
           | none => false) then st
  else
    match outcome with
    | .failed => st
    | .socket opensNow =>
        let st := { st with session := { st.session with modelConnId := some newId } }
        if opensNow then
          { st with sockets := wsSet st.sockets newId ⟨Role.model, ReadyState.opened⟩ }
        else
          { st with pendingModelOpen := newId :: st.pendingModelOpen }

/-- The deferred `open` listener of a model socket dialed while still
connecting: it registers the socket in the table as open. -/
def modelOpenEvt (st : CoordState) (id : Nat) : CoordState :=
  if id ∈ st.pendingModelOpen then
    { st with sockets := wsSet st.sockets id ⟨Role.model, ReadyState.opened⟩,
              pendingModelOpen := st.pendingModelOpen.erase id }
  else st

/-- Registration of a telephony connection: `handleWebSocket` accepts the
socket and stores it in the table, then `handleCallConnection` closes any
previously tracked telephony socket found in the table, records the new id
and the backend credential. -/
def handleCallConnection (st : CoordState) (newId : Nat) (apiKey : String) : CoordState :=
  let st := { st with sockets := wsSet st.sockets newId ⟨Role.call, ReadyState.opened⟩ }
  let st :=
    match st.session.twilioConnId with
    | some old =>
        match st.sockets old with
        | some _ => { st with sockets := wsCloseOne st.sockets old }
        | none => st
    | none => st
  let sess := { st.session with twilioConnId := some newId, openAIApiKey := some apiKey }
  { st with session := sess }

/-- Registration of an observer (`logs`) connection in the index.ts
coordinator copy: the socket is accepted and stored, and `frontendConnId` is
simply updated — the prior observer socket is left untouched so multiple
observers may coexist. -/
def handleFrontendConnection (st : CoordState) (newId : Nat) : CoordState :=
  let st := { st with sockets := wsSet st.sockets newId ⟨Role.logs, ReadyState.opened⟩ }
  { st with session := { st.session with frontendConnId := some newId } }

/-- Registration of an observer connection in the OLDER coordinator copy
(`sessionManager.ts` lines 96-106): any previously tracked observer socket
found in the table is force-closed before the identifier is replaced. -/
def handleFrontendConnectionLegacy (st : CoordState) (newId : Nat) : CoordState :=
  let st := { st with sockets := wsSet st.sockets newId ⟨Role.logs, ReadyState.opened⟩ }
  let st :=
    match st.session.frontendConnId with
    | some old =>
        match st.sockets old with
        | some _ => { st with sockets := wsCloseOne st.sockets old }
        | none => st
    | none => st
  { st with session := { st.session with frontendConnId := some newId } }

/-- The `cleanupCallConnection` path (telephony leg closed): reset hold
music, close and drop the model socket, clear the call-scoped session fields
(the frontend id, config and credential survive). -/
def cleanupCallConnection (st : CoordState) : CoordState :=
  let st := { st with hm := resetHoldMusicState st.hm }
  let st :=
    match st.session.modelConnId with
    | some m =>
        let s1 :=
          match st.sockets m with
          | some _ => { st with sockets := wsCloseOne st.sockets m }
          | none => st
        { s1 with sockets := wsDelete s1.sockets m }
    | none => st
  let sess := { st.session with
                twilioConnId := none, modelConnId := none, streamSid := none,
                callSid := none, lastAssistantItem := none, responseStartTimestamp := none,
                latestMediaTimestamp := none }
  { st with session := sess }

/-- The `cleanupAllConnections` path (`close` telephony event): reset hold
music, close every open socket and clear the table, and reset the whole
session record.  Pending `open` listeners persist in the source and are kept
here. -/
def cleanupAllConnections (st : CoordState) : CoordState :=
  { session := {}, sockets := fun _ => none, pendingModelOpen := st.pendingModelOpen,
    hm := resetHoldMusicState st.hm }

/-- Events of the telephony leg (`msg.event` values handled by the
source switch). -/
inductive TwilioEvent where
  | start (streamSid : String) (callSid : String)
  | media (timestamp : Int) (payload : String)
  | closeEvent
  | otherEvent

/-- The `handleTwilioMessage` dispatch.  The `start` arm stores the stream
identifiers, resets the timing fields and attempts the model dial (`dialId`
and `dial` stand for the fresh id and the external outcome of that dial;
they are ignored by the other arms). -/
def handleTwilioMessage (st : CoordState) (e : TwilioEvent) (dialId : Nat)
    (dial : DialOutcome) : StepOut :=
  match e with
  | .start sid csid =>
      let sess := { st.session with
                    streamSid := some sid, callSid := some csid,
                    latestMediaTimestamp := some 0, lastAssistantItem := none,
                    responseStartTimestamp := none }
      { state := tryConnectModel { st with session := sess } dialId dial }
  | .media ts payload =>
      let st := { st with session := { st.session with latestMediaTimestamp := some ts } }
      if st.session.modelConnId.isSome && isWsOpen st st.session.modelConnId then
        { state := st, toModel := [ModelOut.inputAudioAppend payload] }
      else { state := st }
  | .closeEvent => { state := cleanupAllConnections st }
  | .otherEvent => { state := st }

/-- Close-event dispatch for a socket: the listener removes it from the
table; a telephony socket that is still the tracked one triggers
`cleanupCallConnection`; an observer socket that is the tracked one clears
`frontendConnId`; a model socket clears `modelConnId` unconditionally.  A
socket never registered in the table (a still-pending model dial) is handled
by its own close listener, which clears `modelConnId`. -/
def socketClosedEvt (st : CoordState) (id : Nat) : CoordState :=
  match st.sockets id with
  | some s =>
      let st := { st with sockets := wsDelete st.sockets id }
      match s.role with
      | .call => if st.session.twilioConnId = some id then cleanupCallConnection st else st
      | .logs =>
          if st.session.frontendConnId = some id then
            { st with session := { st.session with frontendConnId := none } }
          else st
      | .model => { st with session := { st.session with modelConnId := none } }
  | none =>
      if id ∈ st.pendingModelOpen then
        { st with pendingModelOpen := st.pendingModelOpen.erase id,
                  session := { st.session with modelConnId := none } }
      else st

/-! ### Incoming-call notification (index.ts `handleIncomingCall`) -/

/-- Digit filter `from.replace(/\D/g, "")`. -/
def cleanNumber (s : List Char) : List Char := s.filter Char.isDigit

/-- The masked caller number (source variable `partialNumber`): first six
digits followed by `xxxx` when at least ten digits survive cleaning,
otherwise the ENTIRE cleaned number followed by `xxxx`. -/
def maskedNumber (s : List Char) : List Char :=
  let c := cleanNumber s
  if 10 ≤ c.length then c.take 6 ++ ['x', 'x', 'x', 'x']
  else c ++ ['x', 'x', 'x', 'x']

/-- The `incoming_call` notification broadcast to the frontends. -/
structure IncomingCallNotification where
  callSid : String
  maskedCallerNumber : List Char
  timestamp : Int

/-- The notification-building part of `handleIncomingCall`: missing
parameters (falsy `CallSid` or `From`) yield a 400 and no broadcast. -/
def handleIncomingCall (callSid : String) (fromNumber : List Char) (now : Int) :
    Option IncomingCallNotification :=
  if callSid == "" || fromNumber.isEmpty then none
  else some { callSid := callSid, maskedCallerNumber := maskedNumber fromNumber,
              timestamp := now }

/-! ### Reachability over connection-event interleavings -/

/-- All states a coordinator can reach from the initial state under an
arbitrary interleaving of connection registrations, telephony messages,
deferred model-socket opens, socket closures and model-leg messages.  Fresh
connection ids are required not to collide with live or pending ids. -/
inductive Reaches : CoordState → Prop where
  | init : Reaches {}
  | callConn {st} (newId : Nat) (apiKey : String) :
      Reaches st → st.sockets newId = none → Reaches (handleCallConnection st newId apiKey)
  | logsConn {st} (newId : Nat) :
      Reaches st → st.sockets newId = none → Reaches (handleFrontendConnection st newId)
  | twilioMsg {st} (e : TwilioEvent) (dialId : Nat) (dial : DialOutcome) :
      Reaches st → st.sockets dialId = none → dialId ∉ st.pendingModelOpen →
      Reaches (handleTwilioMessage st e dialId dial).state
  | modelOpens {st} (id : Nat) : Reaches st → Reaches (modelOpenEvt st id)
  | sockClosed {st} (id : Nat) : Reaches st → Reaches (socketClosedEvt st id)
  | modelMsg {st} (fns : List FnDef) (parseArgs : String → Option JVal)
      (r2get : String → Option (List Nat)) (raw : Option ModelEvent) :
      Reaches st → Reaches (onModelWsMessage fns parseArgs r2get st raw).state

/-- Invariant: every OPEN telephony-role socket in the table is the tracked
telephony connection (hence there is at most one open telephony socket). -/
def callSockTracked (st : CoordState) : Prop :=
  ∀ i s, st.sockets i = some s → s.role = Role.call → s.ready = ReadyState.opened →
    st.session.twilioConnId = some i

/-! ### Concrete fixture states for witnesses and counterexamples -/

/-- Socket table with one open telephony socket (id 1) and one open model
socket (id 2). -/
def socksCallModel : WsMap :=
  fun i =>
    if i = 1 then some ⟨Role.call, ReadyState.opened⟩
    else if i = 2 then some ⟨Role.model, ReadyState.opened⟩
    else none

/-- Session tracking both sockets of `socksCallModel`, mid-call. -/
def sessBase : Session :=
  { twilioConnId := some 1, modelConnId := some 2, streamSid := some "SD1",
    callSid := some "CA1", latestMediaTimestamp := some 1000,
    openAIApiKey := some "sk-test" }

/-- Coordinator state mid-call with both legs open and hold music idle. -/
def stBase : CoordState := { session := sessBase, sockets := socksCallModel }

/-- Same state with hold music currently playing (one full frame already
emitted from the synthesized buffer, next tick scheduled). -/
def stBaseMusic : CoordState :=
  { stBase with
    hm := { isPlaying := true, audioBuffer := some generateHoldMusicAudio,
            intervalId := some 5, position := 160, pendingTick := true, nextTimerId := 6 } }

/-- Same state with a stored frontend configuration. -/
def stBaseCfg : CoordState :=
  { stBase with session := { sessBase with config := some [("voice", JVal.str "alloy")] } }

/-- Scenario state: an assistant `audio-delta` for `item1` arrived at
`latestMediaTimestamp = 1000`, setting the response-start reference. -/
def stAfterDelta : CoordState :=
  (handleModelMessage functionsTable (fun _ => none) (fun _ => none) stBase
    (.audioDelta (some "item1") "BBBB")).state

/-- Scenario state: a later caller media frame moved the telephony clock to
`1400`. -/
def stAfterMedia : CoordState :=
  (handleTwilioMessage stAfterDelta (.media 1400 "CCCC") 0 .failed).state

/-- Trace state: a telephony connection (id 1) registered on a fresh
coordinator. -/
def dialTrace1 : CoordState := handleCallConnection {} 1 "sk-test"

/-- Trace state: a stream-start dialed model socket 2, which was accepted
still CONNECTING, so it is tracked by identifier but not yet in the table. -/
def dialTrace2 : CoordState :=
  (handleTwilioMessage dialTrace1 (.start "SD1" "CA1") 2 (.socket false)).state

/-- Trace state: a second stream-start, seeing no open model socket in the
table, dialed model socket 3 (already open) and replaced the tracked
identifier — without ever closing socket 2. -/
def dialTrace3 : CoordState :=
  (handleTwilioMessage dialTrace2 (.start "SD1" "CA1") 3 (.socket true)).state

/-- Trace state: socket 2's deferred `open` listener now fires, registering
it in the table as open — two live model sockets coexist. -/
def dialTrace4 : CoordState := modelOpenEvt dialTrace3 2

/-- Hold-music state playing a 100-byte buffer (not a multiple of the
160-byte frame) from the start, with a tick scheduled. -/
def hmShortBuffer : HMState :=
  { isPlaying := true, audioBuffer := some (List.replicate 100 7), intervalId := some 0,
    position := 0, pendingTick := true, nextTimerId := 1 }

/-! ## Helper lemmas -/

/-- Last-binding-wins lookup distributes over list append. -/
theorem objGet_append (xs ys : List (String × JVal)) (k : String) :
    objGet (xs ++ ys) k =
      match objGet ys k with
      | some v => some v
      | none => objGet xs k := by
  induction xs with
  | nil =>
      simp only [List.nil_append]
      cases objGet ys k <;> rfl
  | cons p rest ih =>
      obtain ⟨k0, v0⟩ := p
      simp only [List.cons_append, objGet, List.append_eq]
      rw [ih]
      cases objGet ys k
      · cases objGet rest k <;> rfl
      · rfl

/-- Lookup description of the merged session object: the forced tools at
the key `tools`, otherwise the stored config overriding the defaults. -/
theorem mergedSessionObj_objGet (fns : List FnDef) (config : List (String × JVal))
    (k : String) :
    objGet (mergedSessionObj fns config) k =
      if k = "tools" then some (JVal.arr (allTools fns config))
      else (objGet config k).orElse fun _ => objGet sessionDefaults k := by
  unfold mergedSessionObj
  rw [List.append_assoc, objGet_append, objGet_append]
  by_cases hk : k = "tools"
  · subst hk
    simp [objGet]
  · have h1 : objGet [("tools", JVal.arr (allTools fns config))] k = none := by
      simp [objGet, Ne.symm hk]
    rw [h1, if_neg hk]
    cases objGet config k <;> rfl

/-- Source clamp `elapsedMs > 0 ? elapsedMs : 0` equals `max 0 elapsedMs`. -/
theorem ite_pos_eq_max (e : Int) : (if e > 0 then e else 0) = max 0 e := by
  rcases le_or_lt e 0 with h | h
  · rw [if_neg (by omega), max_eq_left h]
  · rw [if_pos h, max_eq_right h.le]

/-- A timer tick never changes `isPlaying`. -/
theorem streamAudioChunksTick_isPlaying (st : HMState) :
    (streamAudioChunksTick st).1.isPlaying = st.isPlaying := by
  unfold streamAudioChunksTick
  cases hb : st.audioBuffer <;> by_cases hp : st.isPlaying <;>
    simp [hp, hb] <;> split <;> simp

/-- A timer tick never changes the buffer. -/
theorem streamAudioChunksTick_audioBuffer (st : HMState) :
    (streamAudioChunksTick st).1.audioBuffer = st.audioBuffer := by
  unfold streamAudioChunksTick
  cases hb : st.audioBuffer <;> by_cases hp : st.isPlaying <;>
    simp [hp, hb] <;> split <;> simp [hb]

/-- After `startHoldMusic` the service always reports playing (already
playing is a no-op; otherwise `isPlaying` is set before the first tick and
no tick clears it). -/
theorem startHoldMusic_isPlaying (r2get : String → Option (List Nat))
    (t : Option String) (st : HMState) :
    (startHoldMusic r2get t st).1.isPlaying = true := by
  unfold startHoldMusic
  by_cases hp : st.isPlaying
  · simpa [hp]
  · simp [hp, streamAudioChunksTick_isPlaying]

/-- A tick preserves the playing-iff-scheduled field invariant. -/
theorem streamAudioChunksTick_inv (st : HMState) (h : st.isPlaying = st.intervalId.isSome) :
    (streamAudioChunksTick st).1.isPlaying = (streamAudioChunksTick st).1.intervalId.isSome := by
  unfold streamAudioChunksTick
  by_cases hp : st.isPlaying
  · cases hb : st.audioBuffer with
    | none => simpa [hp, hb] using h
    | some buf =>
        by_cases hc : min 160 (buf.length - st.position) = 0
        · simpa [hp, hb, hc] using h
        · simp [hp, hb, hc]
  · simpa [hp] using h

/-- Starting with a non-empty resolved buffer establishes the field
invariant: the first tick emits a chunk and schedules the next one. -/
theorem startHoldMusic_inv (r2get : String → Option (List Nat)) (t : Option String)
    (st : HMState) (h : st.isPlaying = st.intervalId.isSome)
    (hne : resolveBuffer r2get t ≠ []) :
    (startHoldMusic r2get t st).1.isPlaying = (startHoldMusic r2get t st).1.intervalId.isSome := by
  by_cases hp : st.isPlaying
  · simpa [startHoldMusic, hp] using h
  · have hlen : (resolveBuffer r2get t).length ≠ 0 :=
      fun hl => hne (List.length_eq_zero.mp hl)
    have hc : min 160 (resolveBuffer r2get t).length ≠ 0 := by omega
    simp [startHoldMusic, hp, streamAudioChunksTick, Nat.sub_zero, hc]

/-- Stopping preserves the field invariant. -/
theorem stopHoldMusic_inv (st : HMState) (h : st.isPlaying = st.intervalId.isSome) :
    (stopHoldMusic st).1.isPlaying = (stopHoldMusic st).1.intervalId.isSome := by
  unfold stopHoldMusic
  by_cases hp : st.isPlaying
  · by_cases hi : st.intervalId.isSome <;> simp [hp, hi]
  · simpa [hp] using h

/-- Resetting establishes the field invariant unconditionally. -/
theorem resetHoldMusicState_inv (st : HMState) :
    (resetHoldMusicState st).isPlaying = (resetHoldMusicState st).intervalId.isSome := by
  unfold resetHoldMusicState
  by_cases hi : st.intervalId.isSome <;> simp [hi]

/-! ## Claim C7 (corrected) -/

/-- C7 counterexample: the claim asserts `isPlaying == true` iff the timer
handle is set, at all times.  Starting hold music when the stored asset is
an empty object (an empty `ArrayBuffer` is truthy, so the source uses it
as-is) reaches a state with `isPlaying = true` and no timer handle: the
first tick finds a zero-length chunk and returns without scheduling. -/
theorem c7_counterexample :
    HMReach (fun _ => True) (startHoldMusic (fun _ => some []) none {}).1 ∧
    (startHoldMusic (fun _ => some []) none {}).1.isPlaying = true ∧
    (startHoldMusic (fun _ => some []) none {}).1.intervalId = none ∧
    (startHoldMusic (fun _ => some []) none {}).1.pendingTick = false :=
  ⟨HMReach.start _ _ HMReach.init trivial, rfl, rfl, rfl⟩

/-- C7 amended: start while playing is a no-op returning success; stop while
idle is a no-op returning success; and PROVIDED every start of the trace
resolves a non-empty buffer, `isPlaying` is true exactly when the stored
timer-handle field is set, in every reachable state.  (A start that resolves
an empty stored buffer sets `isPlaying` without ever scheduling a tick,
breaking the equivalence, as the counterexample shows.) -/
theorem c7_amended :
    (∀ (st : HMState) (r2get : String → Option (List Nat)) (t : Option String),
        st.isPlaying = true → startHoldMusic r2get t st = (st, [], true))
    ∧ (∀ st : HMState, st.isPlaying = false → stopHoldMusic st = (st, true))
    ∧ (∀ st : HMState, HMReach (fun b => b ≠ []) st →
        st.isPlaying = st.intervalId.isSome) := by
  refine ⟨?_, ?_, ?_⟩
  · intro st r2get t h
    simp [startHoldMusic, h]
  · intro st h
    simp [stopHoldMusic, h]
  · intro st h
    induction h with
    | init => rfl
    | start r2get t _hr hP ih => exact startHoldMusic_inv r2get t _ ih hP
    | tick _hr _hpend ih => exact streamAudioChunksTick_inv _ ih
    | stop _hr ih => exact stopHoldMusic_inv _ ih
    | reset _hr _ih => exact resetHoldMusicState_inv _

/-- C7 witness: the amended theorem applied at concrete states — a playing
state for start-idempivity, the idle initial state for stop-idempotency, and
a one-start trace with the (non-empty) synthesized buffer for the
invariant. -/
theorem c7_amended_witness :
    (startHoldMusic (fun _ => some (List.replicate 16 1)) none
        (startHoldMusic (fun _ => some (List.replicate 16 1)) none {}).1 =
      ((startHoldMusic (fun _ => some (List.replicate 16 1)) none {}).1, [], true))
    ∧ stopHoldMusic {} = ({}, true)
    ∧ ((startHoldMusic (fun _ => some (List.replicate 16 1)) none {}).1.isPlaying =
        (startHoldMusic (fun _ => some (List.replicate 16 1)) none {}).1.intervalId.isSome) := by
  refine ⟨?_, ?_, ?_⟩
  · exact c7_amended.1 _ _ _ (by decide)
  · exact c7_amended.2.1 _ (by decide)
  · exact c7_amended.2.2 _ (HMReach.start _ _ HMReach.init (by decide))

/-! ## Claim C4 (corrected) -/

/-- C4 counterexample: the claim asserts every emitted chunk is exactly 160
bytes, with the cursor wrapping instead of a short chunk.  On a playing
100-byte buffer at cursor 0 the tick emits a 100-byte chunk (no wrap); the
following tick, at the exact end, emits nothing, wraps the cursor to 0 and —
in this copy — does not reschedule, so playback does not loop. -/
theorem c4_counterexample :
    ((streamAudioChunksTick hmShortBuffer).2.map List.length = some 100)
    ∧ ((streamAudioChunksTick hmShortBuffer).1.position = 100)
    ∧ ((streamAudioChunksTick (streamAudioChunksTick hmShortBuffer).1).2 = none)
    ∧ ((streamAudioChunksTick (streamAudioChunksTick hmShortBuffer).1).1.position = 0)
    ∧ ((streamAudioChunksTick (streamAudioChunksTick hmShortBuffer).1).1.pendingTick = false)
    ∧ ((streamAudioChunksTick (streamAudioChunksTick hmShortBuffer).1).1.isPlaying = true) := by
  set_option maxRecDepth 20000 in
  refine ⟨?_, ?_, ?_, ?_, ?_, ?_⟩ <;> rfl

/-- C4 amended: a tick on a playing buffer emits the slice of exactly
`min 160 (length - cursor)` bytes starting at the cursor — a full 160-byte
frame whenever at least one frame remains, a SHORTER final chunk when fewer
than 160 bytes remain — and advances the cursor by the emitted length; only
when the cursor sits exactly at the end does it emit nothing, wrap the
cursor to 0, and (in this copy) leave no further tick scheduled. -/
theorem c4_amended (st : HMState) (buf : List Nat)
    (hp : st.isPlaying = true) (hb : st.audioBuffer = some buf)
    (hpos : st.position ≤ buf.length) :
    (st.position = buf.length →
      (streamAudioChunksTick st).2 = none ∧
      (streamAudioChunksTick st).1.position = 0 ∧
      (streamAudioChunksTick st).1.pendingTick = false)
    ∧ (st.position < buf.length →
      (streamAudioChunksTick st).2 =
        some ((buf.drop st.position).take (min 160 (buf.length - st.position))) ∧
      (streamAudioChunksTick st).2.map List.length =
        some (min 160 (buf.length - st.position)) ∧
      (streamAudioChunksTick st).1.position =
        st.position + min 160 (buf.length - st.position))
    ∧ (160 ≤ buf.length - st.position →
      (streamAudioChunksTick st).2.map List.length = some 160) := by
  refine ⟨?_, ?_, ?_⟩
  · intro hend
    have hc : min 160 (buf.length - st.position) = 0 := by omega
    simp [streamAudioChunksTick, hp, hb, hc]
  · intro hlt
    have hc : min 160 (buf.length - st.position) ≠ 0 := by omega
    have hlen : ((buf.drop st.position).take (min 160 (buf.length - st.position))).length =
        min 160 (buf.length - st.position) := by
      rw [List.length_take, List.length_drop]
      omega
    simp [streamAudioChunksTick, hp, hb, hc, hlen]
  · intro hge
    have hlt : st.position < buf.length := by omega
    have hc : min 160 (buf.length - st.position) ≠ 0 := by omega
    have hmin : min 160 (buf.length - st.position) = 160 := by omega
    have hlen : ((buf.drop st.position).take (min 160 (buf.length - st.position))).length =
        min 160 (buf.length - st.position) := by
      rw [List.length_take, List.length_drop]
      omega
    simp [streamAudioChunksTick, hp, hb, hc, hlen, hmin]

/-- C4 witness: the amended theorem applied to a playing 320-byte buffer at
cursor 0 — the emitted chunk is exactly one full 160-byte frame. -/
theorem c4_amended_witness :
    (streamAudioChunksTick
        { isPlaying := true, audioBuffer := some (List.replicate 320 9), intervalId := some 0,
          position := 0, pendingTick := true, nextTimerId := 1 }).2.map List.length =
      some 160 := by
  set_option maxRecDepth 20000 in
  exact (c4_amended _ (List.replicate 320 9) rfl rfl (by decide)).2.2 (by decide)

/-! ## Claim C8 (confirmed) -/

/-- C8: whenever no assistant utterance is in flight (`lastAssistantItem`
unset — or empty, which the source falsiness test treats the same — or
`responseStartTimestamp` unset), a speech-started event sends nothing to the
model or telephony leg and leaves the coordinator state, hence every Session
field, unchanged. -/
theorem c8_truncation_noop (fns : List FnDef) (parseArgs : String → Option JVal)
    (r2get : String → Option (List Nat)) (st : CoordState)
    (h : st.session.lastAssistantItem.getD "" = "" ∨
         st.session.responseStartTimestamp = none) :
    (handleModelMessage fns parseArgs r2get st .speechStarted).state = st ∧
    (handleModelMessage fns parseArgs r2get st .speechStarted).toModel = [] ∧
    (handleModelMessage fns parseArgs r2get st .speechStarted).toTwilio = [] := by
  have hg : (st.session.lastAssistantItem.getD "" == "" ||
      st.session.responseStartTimestamp.isNone) = true := by
    rcases h with h | h <;> simp [h]
  unfold handleModelMessage handleTruncation
  simp [hg]

/-- C8 witness: the theorem applied at the mid-call fixture state, where no
assistant utterance is in flight. -/
theorem c8_truncation_noop_witness :
    (stBase.session.lastAssistantItem.getD "" = "" ∨
      stBase.session.responseStartTimestamp = none) ∧
    (handleModelMessage functionsTable (fun _ => none) (fun _ => none) stBase
        .speechStarted).state = stBase ∧
    (handleModelMessage functionsTable (fun _ => none) (fun _ => none) stBase
        .speechStarted).toModel = [] :=
  ⟨Or.inl (by decide),
   (c8_truncation_noop functionsTable (fun _ => none) (fun _ => none) stBase
      (Or.inl (by decide))).1,
   (c8_truncation_noop functionsTable (fun _ => none) (fun _ => none) stBase
      (Or.inl (by decide))).2.1⟩

/-! ## Claim C10 (confirmed) -/

/-- C10: the masked caller number broadcast on an incoming call always ends
in `xxxx`; with at least ten digits after cleaning it is exactly the first
six digits plus `xxxx` (so two callers agreeing on their first six digits
are indistinguishable); with fewer than ten digits the ENTIRE cleaned number
— last four digits included — is exposed before the `xxxx` suffix. -/
theorem c10_masked_caller_number :
    (∀ s : List Char, ∃ p, maskedNumber s = p ++ ['x', 'x', 'x', 'x'])
    ∧ (∀ s : List Char, 10 ≤ (cleanNumber s).length →
        maskedNumber s = (cleanNumber s).take 6 ++ ['x', 'x', 'x', 'x'])
    ∧ (∀ s₁ s₂ : List Char, 10 ≤ (cleanNumber s₁).length → 10 ≤ (cleanNumber s₂).length →
        (cleanNumber s₁).take 6 = (cleanNumber s₂).take 6 →
        maskedNumber s₁ = maskedNumber s₂)
    ∧ (∀ s : List Char, (cleanNumber s).length < 10 →
        maskedNumber s = cleanNumber s ++ ['x', 'x', 'x', 'x'])
    ∧ (∀ (c : String) (f : List Char) (now : Int) (n : IncomingCallNotification),
        handleIncomingCall c f now = some n → n.maskedCallerNumber = maskedNumber f) := by
  refine ⟨?_, ?_, ?_, ?_, ?_⟩
  · intro s
    by_cases h : 10 ≤ (cleanNumber s).length
    · exact ⟨(cleanNumber s).take 6, by simp [maskedNumber, h]⟩
    · exact ⟨cleanNumber s, by simp [maskedNumber, h]⟩
  · intro s h
    simp [maskedNumber, h]
  · intro s₁ s₂ h1 h2 ht
    simp [maskedNumber, h1, h2, ht]
  · intro s h
    have hn : ¬ 10 ≤ (cleanNumber s).length := by omega
    simp [maskedNumber, hn]
  · intro c f now n h
    unfold handleIncomingCall at h
    split at h
    · exact absurd h (by simp)
    · have := Option.some.inj h
      subst this
      rfl

/-- C10 witness: the theorem applied to concrete caller numbers — an
11-digit number is masked to its first six digits plus `xxxx`, two numbers
agreeing on the first six digits mask identically, and a 7-digit number is
exposed in full before the suffix. -/
theorem c10_masked_caller_number_witness :
    (10 ≤ (cleanNumber "+1 (415) 555-0123".toList).length ∧
      maskedNumber "+1 (415) 555-0123".toList =
        (cleanNumber "+1 (415) 555-0123".toList).take 6 ++ ['x', 'x', 'x', 'x'])
    ∧ maskedNumber "+1 (415) 555-0123".toList = maskedNumber "14155559999".toList
    ∧ ((cleanNumber "555-0123".toList).length < 10 ∧
      maskedNumber "555-0123".toList = cleanNumber "555-0123".toList ++ ['x', 'x', 'x', 'x']) :=
  ⟨⟨by decide, c10_masked_caller_number.2.1 _ (by decide)⟩,
   c10_masked_caller_number.2.2.1 _ _ (by decide) (by decide) (by decide),
   ⟨by decide, c10_masked_caller_number.2.2.2.1 _ (by decide)⟩⟩

/-! ## Claim C1 (confirmed) -/

/-- C1: a speech-started event arriving while both `lastAssistantItem` and
`responseStartTimestamp` are set (and the model and telephony legs are open
with a stream id) makes the coordinator send the model a
`conversation.item.truncate` naming that item with
`audio_end_ms = max 0 (latestMediaTimestamp - responseStartTimestamp)`, send
the telephony leg a `clear`, and clear both timing fields, leaving the
sockets, the stream id, the media clock and the hold-music state
untouched. -/
theorem c1_truncation_on_speech_started (fns : List FnDef)
    (parseArgs : String → Option JVal) (r2get : String → Option (List Nat))
    (st : CoordState) (item : String) (t0 : Int) (tid : Nat) (sid : String)
    (hlast : st.session.lastAssistantItem = some item) (hitem : item ≠ "")
    (hrst : st.session.responseStartTimestamp = some t0)
    (hmodel : isWsOpen st st.session.modelConnId = true)
    (htwil : st.session.twilioConnId = some tid)
    (htopen : isWsOpen st (some tid) = true)
    (hsid : st.session.streamSid = some sid) (hsidne : sid ≠ "") :
    (handleModelMessage fns parseArgs r2get st .speechStarted).toModel =
      [ModelOut.truncate item 0 (max 0 (st.session.latestMediaTimestamp.getD 0 - t0))]
    ∧ (handleModelMessage fns parseArgs r2get st .speechStarted).toTwilio =
      [TwilioOut.clear sid]
    ∧ (handleModelMessage fns parseArgs r2get st .speechStarted).state.session.lastAssistantItem
      = none
    ∧ (handleModelMessage fns parseArgs r2get st
        .speechStarted).state.session.responseStartTimestamp = none
    ∧ (handleModelMessage fns parseArgs r2get st .speechStarted).state.sockets = st.sockets
    ∧ (handleModelMessage fns parseArgs r2get st .speechStarted).state.session.streamSid =
      st.session.streamSid
    ∧ (handleModelMessage fns parseArgs r2get st
        .speechStarted).state.session.latestMediaTimestamp = st.session.latestMediaTimestamp
    ∧ (handleModelMessage fns parseArgs r2get st .speechStarted).state.hm = st.hm := by
  have hni : (item == "") = false := by
    simpa using hitem
  unfold handleModelMessage handleTruncation
  simp [hlast, hrst, hni, hmodel, htwil, htopen, hsid, hsidne]
  rcases le_or_lt (st.session.latestMediaTimestamp.getD 0 - t0) 0 with h | h
  · rw [if_neg (by omega), max_eq_left h]
  · rw [if_pos (by omega), max_eq_right h.le]

/-- C1 witness: running the spec scenario — `audio-delta` for `item1` at
media offset 1000, a media frame at 1400, then speech-started — sends the
model a truncate for `item1` at `audio_end_ms = max 0 (1400 - 1000) = 400`
and the telephony leg a clear for `SD1`. -/
theorem c1_truncation_on_speech_started_witness :
    stAfterMedia.session.lastAssistantItem = some "item1"
    ∧ stAfterMedia.session.responseStartTimestamp = some 1000
    ∧ stAfterMedia.session.latestMediaTimestamp = some 1400
    ∧ (handleModelMessage functionsTable (fun _ => none) (fun _ => none) stAfterMedia
        .speechStarted).toModel =
      [ModelOut.truncate "item1" 0
        (max 0 (stAfterMedia.session.latestMediaTimestamp.getD 0 - 1000))]
    ∧ max 0 (stAfterMedia.session.latestMediaTimestamp.getD 0 - 1000) = 400
    ∧ (handleModelMessage functionsTable (fun _ => none) (fun _ => none) stAfterMedia
        .speechStarted).toTwilio = [TwilioOut.clear "SD1"]
    ∧ (handleModelMessage functionsTable (fun _ => none) (fun _ => none) stAfterMedia
        .speechStarted).state.session.lastAssistantItem = none
    ∧ (handleModelMessage functionsTable (fun _ => none) (fun _ => none) stAfterMedia
        .speechStarted).state.session.responseStartTimestamp = none := by
  have h := c1_truncation_on_speech_started functionsTable (fun _ => none) (fun _ => none)
    stAfterMedia "item1" 1000 1 "SD1" (by decide) (by decide) (by decide) (by decide)
    (by decide) (by decide) (by decide) (by decide)
  exact ⟨by decide, by decide, by decide, h.1, by decide, h.2.1, h.2.2.1, h.2.2.2.1⟩

/-! ## Claim C5 (confirmed) -/

/-- C5: on session-created with the model leg open, the coordinator sends —
in this order — a `session.update` whose session object is the fixed
defaults overridden by the stored config except that `tools` is forced to
the union of the built-in function schemas and the config's tools, then the
fixed system greeting item, then `response.create`. -/
theorem c5_session_created_merge (fns : List FnDef) (parseArgs : String → Option JVal)
    (r2get : String → Option (List Nat)) (st : CoordState)
    (config : List (String × JVal)) (m : Nat)
    (hcfg : st.session.config = some config)
    (hm : st.session.modelConnId = some m)
    (hopen : isWsOpen st (some m) = true) :
    (handleModelMessage fns parseArgs r2get st .sessionCreated).toModel =
      [ModelOut.sessionUpdate (mergedSessionObj fns config),
       ModelOut.conversationItemCreate greetingItem,
       ModelOut.responseCreate]
    ∧ ∀ k, objGet (mergedSessionObj fns config) k =
        if k = "tools" then some (JVal.arr (backendTools fns ++ frontendTools config))
        else (objGet config k).orElse fun _ => objGet sessionDefaults k := by
  constructor
  · unfold handleModelMessage
    simp [hcfg, hm, hopen]
  · intro k
    simpa [allTools] using mergedSessionObj_objGet fns config k

/-- C5 witness: the theorem applied at the fixture state whose stored config
carries a custom voice; the sent object resolves `voice` to the config's
value, any untouched key to its default, and `tools` to the forced union
(which contains exactly the one built-in schema here). -/
theorem c5_session_created_merge_witness :
    (handleModelMessage functionsTable (fun _ => none) (fun _ => none) stBaseCfg
        .sessionCreated).toModel =
      [ModelOut.sessionUpdate (mergedSessionObj functionsTable [("voice", JVal.str "alloy")]),
       ModelOut.conversationItemCreate greetingItem,
       ModelOut.responseCreate]
    ∧ objGet (mergedSessionObj functionsTable [("voice", JVal.str "alloy")]) "voice" =
      (objGet [("voice", JVal.str "alloy")] "voice").orElse
        (fun _ => objGet sessionDefaults "voice")
    ∧ objGet (mergedSessionObj functionsTable [("voice", JVal.str "alloy")]) "tools" =
      some (JVal.arr (backendTools functionsTable ++
        frontendTools [("voice", JVal.str "alloy")])) := by
  have h := c5_session_created_merge functionsTable (fun _ => none) (fun _ => none)
    stBaseCfg [("voice", JVal.str "alloy")] 2 rfl rfl (by decide)
  refine ⟨h.1, ?_, ?_⟩
  · have hv := h.2 "voice"
    rwa [if_neg (by decide)] at hv
  · have ht := h.2 "tools"
    rwa [if_pos rfl] at ht

/-! ## Claims C2 and C3 supporting lemmas -/

/-- The conditional hold-music stop always leaves the service not playing. -/
theorem stopHoldMusicIfPlaying_isPlaying (st : CoordState) :
    (stopHoldMusicIfPlaying st).hm.isPlaying = false := by
  unfold stopHoldMusicIfPlaying stopHoldMusic isHoldMusicPlaying
  by_cases hp : st.hm.isPlaying
  · by_cases hi : st.hm.intervalId.isSome <;> simp [hp, hi]
  · simp [hp]

/-- The conditional hold-music stop touches only the hold-music state. -/
theorem stopHoldMusicIfPlaying_frame (st : CoordState) :
    (stopHoldMusicIfPlaying st).session = st.session ∧
    (stopHoldMusicIfPlaying st).sockets = st.sockets ∧
    (stopHoldMusicIfPlaying st).pendingModelOpen = st.pendingModelOpen := by
  unfold stopHoldMusicIfPlaying
  split <;> exact ⟨rfl, rfl, rfl⟩

/-- Function-call dispatch never touches the session record, the socket
table or the pending model opens — only the hold-music state. -/
theorem handleFunctionCall_frame (fns : List FnDef) (parseArgs : String → Option JVal)
    (st : CoordState) (item : FnCallItem) :
    (handleFunctionCall fns parseArgs st item).state.session = st.session ∧
    (handleFunctionCall fns parseArgs st item).state.sockets = st.sockets ∧
    (handleFunctionCall fns parseArgs st item).state.pendingModelOpen =
      st.pendingModelOpen := by
  unfold handleFunctionCall
  cases h1 : fns.find? (fun f => f.schema.name == item.name) with
  | none => exact ⟨rfl, rfl, rfl⟩
  | some fnDef =>
      cases h2 : parseArgs item.args with
      | none => exact ⟨rfl, rfl, rfl⟩
      | some args =>
          cases h3 : fnDef.handler args with
          | ok result =>
              simp only [h3]
              exact stopHoldMusicIfPlaying_frame st
          | error e =>
              simp only [h3]
              exact stopHoldMusicIfPlaying_frame st

/-- Socket openness depends only on the socket table. -/
theorem isWsOpen_congr {a b : CoordState} (h : a.sockets = b.sockets) (o : Option Nat) :
    isWsOpen a o = isWsOpen b o := by
  unfold isWsOpen
  rw [h]

/-! ## Claim C2 (corrected) -/

/-- C2 counterexample: a function-call-done event naming an unregistered
function, on a mid-call state.  As the claim says, nothing is sent to the
model leg and the session survives (the throw is caught by the listener);
but hold music — started just before dispatch — is NOT stopped: it is still
playing when handling ends. -/
theorem c2_counterexample :
    (handleModelMessage functionsTable (fun _ => some (JVal.obj []))
        (fun _ => some (List.replicate 16 2)) stBase
        (.outputItemDone
          { itemType := "function_call", name := "lookup_order", args := "\x7b\x7d",
            callId := some "call_7" })).toModel = []
    ∧ (handleModelMessage functionsTable (fun _ => some (JVal.obj []))
        (fun _ => some (List.replicate 16 2)) stBase
        (.outputItemDone
          { itemType := "function_call", name := "lookup_order", args := "\x7b\x7d",
            callId := some "call_7" })).state.hm.isPlaying = true
    ∧ (handleModelMessage functionsTable (fun _ => some (JVal.obj []))
        (fun _ => some (List.replicate 16 2)) stBase
        (.outputItemDone
          { itemType := "function_call", name := "lookup_order", args := "\x7b\x7d",
            callId := some "call_7" })).threw = true
    ∧ (onModelWsMessage functionsTable (fun _ => some (JVal.obj []))
        (fun _ => some (List.replicate 16 2)) stBase
        (some (.outputItemDone
          { itemType := "function_call", name := "lookup_order", args := "\x7b\x7d",
            callId := some "call_7" }))).threw = false := by
  set_option maxRecDepth 20000 in
  exact ⟨rfl, rfl, rfl, rfl⟩

/-- C2 amended: on a function-call-done event for an unregistered name, no
message is sent to the model leg and the session remains active for
subsequent events — the handler-not-found error escapes `handleFunctionCall`
but is caught by the model-message listener, and neither the session record
nor any socket is modified; hold music, however, is NOT stopped: it is left
playing (started just before dispatch if it was not already). -/
theorem c2_amended (fns : List FnDef) (parseArgs : String → Option JVal)
    (r2get : String → Option (List Nat)) (st : CoordState) (item : FnCallItem)
    (hty : item.itemType = "function_call")
    (hnone : fns.find? (fun f => f.schema.name == item.name) = none) :
    (handleModelMessage fns parseArgs r2get st (.outputItemDone item)).toModel = []
    ∧ (handleModelMessage fns parseArgs r2get st (.outputItemDone item)).threw = true
    ∧ (handleModelMessage fns parseArgs r2get st (.outputItemDone item)).state.session =
      st.session
    ∧ (handleModelMessage fns parseArgs r2get st (.outputItemDone item)).state.sockets =
      st.sockets
    ∧ (handleModelMessage fns parseArgs r2get st
        (.outputItemDone item)).state.hm.isPlaying = true
    ∧ (onModelWsMessage fns parseArgs r2get st (some (.outputItemDone item))).threw =
      false := by
  unfold handleModelMessage onModelWsMessage handleFunctionCall
  by_cases hp : st.hm.isPlaying
  · simp [hty, hnone, isHoldMusicPlaying, hp, handleModelMessage]
  · simp [hty, hnone, isHoldMusicPlaying, hp, handleModelMessage,
      startHoldMusic_isPlaying]

/-- C2 amended witness: the amended theorem applied at the mid-call fixture
with the unregistered name `transfer_call`. -/
theorem c2_amended_witness :
    (handleModelMessage functionsTable (fun _ => some JVal.null)
        (fun _ => some (List.replicate 16 3)) stBase
        (.outputItemDone
          { itemType := "function_call", name := "transfer_call", args := "\x7b\x7d",
            callId := none })).toModel = []
    ∧ (handleModelMessage functionsTable (fun _ => some JVal.null)
        (fun _ => some (List.replicate 16 3)) stBase
        (.outputItemDone
          { itemType := "function_call", name := "transfer_call", args := "\x7b\x7d",
            callId := none })).state.hm.isPlaying = true := by
  have h := c2_amended functionsTable (fun _ => some JVal.null)
    (fun _ => some (List.replicate 16 3)) stBase
    { itemType := "function_call", name := "transfer_call", args := "\x7b\x7d",
      callId := none } rfl rfl
  exact ⟨h.1, h.2.2.2.2.1⟩

/-! ## Claim C3 (corrected) -/

/-- C3 counterexample: a dispatched call to the registered function whose
arguments fail to parse, while hold music is playing — the dispatch returns
with the coordinator state unchanged and hold music STILL PLAYING, refuting
the claim that every path stops it. -/
theorem c3_counterexample :
    (handleFunctionCall functionsTable (fun _ => none) stBaseMusic
        { itemType := "function_call", name := "fetch_prescription_status_for_rosie",
          args := "not json", callId := some "call_9" }).state.hm.isPlaying = true
    ∧ (handleFunctionCall functionsTable (fun _ => none) stBaseMusic
        { itemType := "function_call", name := "fetch_prescription_status_for_rosie",
          args := "not json", callId := some "call_9" }).outcome = FnOutcome.badArgs
    ∧ (handleFunctionCall functionsTable (fun _ => none) stBaseMusic
        { itemType := "function_call", name := "fetch_prescription_status_for_rosie",
          args := "not json", callId := some "call_9" }).state = stBaseMusic :=
  ⟨rfl, rfl, rfl⟩

/-- C3 amended: hold music is stopped on the handler-success and
handler-exception/rejection paths (each via its own conditional stop call,
not a shared guaranteed-cleanup path), and a dispatch never touches the
session or the sockets, so after a handler throws the session still
processes further telephony audio; but on an argument-parse failure the
dispatch returns with the coordinator state unchanged, leaving hold music
playing. -/
theorem c3_amended (fns : List FnDef) (parseArgs : String → Option JVal)
    (st : CoordState) (item : FnCallItem) (fnDef : FnDef)
    (hfind : fns.find? (fun f => f.schema.name == item.name) = some fnDef) :
    (∀ args result, parseArgs item.args = some args → fnDef.handler args = .ok result →
        (handleFunctionCall fns parseArgs st item).state.hm.isPlaying = false)
    ∧ (∀ args e, parseArgs item.args = some args → fnDef.handler args = .error e →
        (handleFunctionCall fns parseArgs st item).state.hm.isPlaying = false ∧
        (handleFunctionCall fns parseArgs st item).toModel = [])
    ∧ (parseArgs item.args = none →
        (handleFunctionCall fns parseArgs st item).state = st)
    ∧ ((handleFunctionCall fns parseArgs st item).state.session = st.session ∧
        (handleFunctionCall fns parseArgs st item).state.sockets = st.sockets)
    ∧ (∀ (ts : Int) (payload : String), st.session.modelConnId.isSome = true →
        isWsOpen st st.session.modelConnId = true →
        (handleTwilioMessage (handleFunctionCall fns parseArgs st item).state
            (.media ts payload) 0 .failed).toModel =
          [ModelOut.inputAudioAppend payload]) := by
  refine ⟨?_, ?_, ?_, ?_, ?_⟩
  · intro args result hargs hok
    unfold handleFunctionCall
    simp [hfind, hargs, hok, stopHoldMusicIfPlaying_isPlaying]
  · intro args e hargs herr
    unfold handleFunctionCall
    simp [hfind, hargs, herr, stopHoldMusicIfPlaying_isPlaying]
  · intro hargs
    unfold handleFunctionCall
    simp [hfind, hargs]
  · exact ⟨(handleFunctionCall_frame fns parseArgs st item).1,
      (handleFunctionCall_frame fns parseArgs st item).2.1⟩
  · intro ts payload hconn hopen
    obtain ⟨hsess, hsock, -⟩ := handleFunctionCall_frame fns parseArgs st item
    unfold handleTwilioMessage isWsOpen
    unfold isWsOpen at hopen
    simp only [hsess, hsock]
    simp [hconn, hopen]

/-- C3 amended witness: the amended theorem applied at the playing fixture —
a successful dispatch of the registered function stops hold music. -/
theorem c3_amended_witness :
    (handleFunctionCall functionsTable (fun _ => some (JVal.obj [])) stBaseMusic
        { itemType := "function_call", name := "fetch_prescription_status_for_rosie",
          args := "\x7b\x7d", callId := some "call_3" }).state.hm.isPlaying = false :=
  (c3_amended functionsTable (fun _ => some (JVal.obj [])) stBaseMusic
    { itemType := "function_call", name := "fetch_prescription_status_for_rosie",
      args := "\x7b\x7d", callId := some "call_3" }
    { schema := fetchPrescriptionSchema, handler := fun _ => Except.ok rosiePrescriptionJson }
    rfl).1 (JVal.obj []) rosiePrescriptionJson rfl rfl

/-! ## Claim C9 (corrected) -/

/-- C9 counterexample: in the OLDER coordinator copy (`sessionManager.ts`,
one of the two coordinator revisions in the repository and a source the
claim cites), registering a new observer while one is tracked force-closes
the prior observer socket, contradicting the claim that the prior socket is
never closed.  Here the fixture is extended with an open observer socket 3;
registering observer 4 closes socket 3. -/
theorem c9_counterexample :
    (handleFrontendConnectionLegacy
        { stBase with
          session := { sessBase with frontendConnId := some 3 },
          sockets := wsSet socksCallModel 3 ⟨Role.logs, ReadyState.opened⟩ } 4).sockets 3 =
      some ⟨Role.logs, ReadyState.closed⟩
    ∧ (handleFrontendConnectionLegacy
        { stBase with
          session := { sessBase with frontendConnId := some 3 },
          sockets := wsSet socksCallModel 3 ⟨Role.logs, ReadyState.opened⟩ } 4).session.frontendConnId =
      some 4 :=
  ⟨rfl, rfl⟩

/-- C9 amended: in the current coordinator copy (index.ts revision), a new
observer registration replaces the previous primary identifier and leaves
every other socket — in particular the prior observer's — untouched, so
multiple simultaneous observers may coexist; in the OLDER coordinator copy
(`sessionManager.ts`), the prior tracked observer socket is force-closed
when a new one registers. -/
theorem c9_amended (st : CoordState) (newId : Nat) (old : Nat) (s0 : Sock)
    (hold : st.session.frontendConnId = some old)
    (hsock : st.sockets old = some s0) (hne : newId ≠ old) :
    (handleFrontendConnection st newId).session.frontendConnId = some newId
    ∧ (∀ i, i ≠ newId → (handleFrontendConnection st newId).sockets i = st.sockets i)
    ∧ (handleFrontendConnection st newId).sockets old = some s0
    ∧ (handleFrontendConnectionLegacy st newId).sockets old =
      some { s0 with ready := ReadyState.closed }
    ∧ (handleFrontendConnectionLegacy st newId).session.frontendConnId = some newId := by
  refine ⟨rfl, ?_, ?_, ?_, rfl⟩
  · intro i hi
    simp [handleFrontendConnection, wsSet, hi]
  · simp [handleFrontendConnection, wsSet, Ne.symm hne, hsock]
  · simp [handleFrontendConnectionLegacy, hold, hsock, wsSet, wsCloseOne, Ne.symm hne]

/-- C9 amended witness: the amended theorem applied at the fixture extended
with an open observer socket 5, registering observer 6. -/
theorem c9_amended_witness :
    (handleFrontendConnection
        { stBase with
          session := { sessBase with frontendConnId := some 5 },
          sockets := wsSet socksCallModel 5 ⟨Role.logs, ReadyState.opened⟩ } 6).sockets 5 =
      some ⟨Role.logs, ReadyState.opened⟩
    ∧ (handleFrontendConnection
        { stBase with
          session := { sessBase with frontendConnId := some 5 },
          sockets := wsSet socksCallModel 5 ⟨Role.logs, ReadyState.opened⟩ } 6).session.frontendConnId =
      some 6 := by
  have h := c9_amended
    { stBase with
      session := { sessBase with frontendConnId := some 5 },
      sockets := wsSet socksCallModel 5 ⟨Role.logs, ReadyState.opened⟩ } 6 5
    ⟨Role.logs, ReadyState.opened⟩ rfl (by decide) (by decide)
  exact ⟨h.2.2.1, h.1⟩

/-! ## Claim C6 supporting lemmas -/

/-- Truncation touches only the timing fields and the outputs. -/
theorem handleTruncation_frame (st : CoordState) :
    (handleTruncation st).state.sockets = st.sockets ∧
    (handleTruncation st).state.pendingModelOpen = st.pendingModelOpen ∧
    (handleTruncation st).state.session.twilioConnId = st.session.twilioConnId := by
  unfold handleTruncation
  split
  · exact ⟨rfl, rfl, rfl⟩
  · exact ⟨rfl, rfl, rfl⟩

/-- Model-leg message handling never changes the socket table, the pending
model opens, or the tracked telephony identifier. -/
theorem handleModelMessage_frame (fns : List FnDef) (parseArgs : String → Option JVal)
    (r2get : String → Option (List Nat)) (st : CoordState) (e : ModelEvent) :
    (handleModelMessage fns parseArgs r2get st e).state.sockets = st.sockets ∧
    (handleModelMessage fns parseArgs r2get st e).state.pendingModelOpen =
      st.pendingModelOpen ∧
    (handleModelMessage fns parseArgs r2get st e).state.session.twilioConnId =
      st.session.twilioConnId := by
  cases e with
  | sessionCreated =>
      by_cases hcond :
          (st.session.modelConnId.isSome && isWsOpen st st.session.modelConnId) = true <;>
        simp [handleModelMessage, hcond]
  | speechStarted =>
      have h := handleTruncation_frame st
      simp only [handleModelMessage]
      exact ⟨h.1, h.2.1, h.2.2⟩
  | audioDelta itemId delta =>
      cases ht : st.session.twilioConnId with
      | none => simp [handleModelMessage, ht]
      | some tid =>
          cases hs : st.session.streamSid with
          | none => simp [handleModelMessage, ht, hs]
          | some sid =>
              by_cases h1 : (sid != "") = true
              · by_cases h2 : st.session.responseStartTimestamp.isNone <;>
                  by_cases h3 : (itemId.getD "" != "") = true <;>
                    simp [handleModelMessage, ht, hs, h1, h2, h3]
              · simp [handleModelMessage, ht, hs, h1]
  | outputItemDone item =>
      by_cases hty : (item.itemType == "function_call") = true
      · by_cases hp : isHoldMusicPlaying st.hm = true
        · simp only [handleModelMessage, hty, hp, Bool.not_true, Bool.false_eq_true,
            if_false, if_true]
          exact ⟨(handleFunctionCall_frame fns parseArgs _ item).2.1,
            (handleFunctionCall_frame fns parseArgs _ item).2.2,
            congrArg Session.twilioConnId (handleFunctionCall_frame fns parseArgs _ item).1⟩
        · have hp2 : isHoldMusicPlaying st.hm = false := by
            simpa using hp
          simp only [handleModelMessage, hty, hp2, Bool.not_false, if_true]
          exact ⟨(handleFunctionCall_frame fns parseArgs _ item).2.1,
            (handleFunctionCall_frame fns parseArgs _ item).2.2,
            congrArg Session.twilioConnId (handleFunctionCall_frame fns parseArgs _ item).1⟩
      · simp [handleModelMessage, hty]
  | itemCreated => exact ⟨rfl, rfl, rfl⟩
  | transcriptionCompleted => exact ⟨rfl, rfl, rfl⟩
  | contentPartAdded => exact ⟨rfl, rfl, rfl⟩
  | transcriptDelta => exact ⟨rfl, rfl, rfl⟩
  | otherEvent ty => exact ⟨rfl, rfl, rfl⟩

/-- The listener wrapper inherits the frame of `handleModelMessage`. -/
theorem onModelWsMessage_frame (fns : List FnDef) (parseArgs : String → Option JVal)
    (r2get : String → Option (List Nat)) (st : CoordState) (raw : Option ModelEvent) :
    (onModelWsMessage fns parseArgs r2get st raw).state.sockets = st.sockets ∧
    (onModelWsMessage fns parseArgs r2get st raw).state.pendingModelOpen =
      st.pendingModelOpen ∧
    (onModelWsMessage fns parseArgs r2get st raw).state.session.twilioConnId =
      st.session.twilioConnId := by
  cases raw with
  | none => exact ⟨rfl, rfl, rfl⟩
  | some e => exact handleModelMessage_frame fns parseArgs r2get st e

/-- The model dial never changes the tracked telephony identifier. -/
theorem tryConnectModel_twilio (st : CoordState) (n : Nat) (o : DialOutcome) :
    (tryConnectModel st n o).session.twilioConnId = st.session.twilioConnId := by
  unfold tryConnectModel
  split
  · rfl
  · split
    · rfl
    · cases o with
      | failed => rfl
      | socket b => cases b <;> rfl

/-- The model dial leaves every socket other than the freshly dialed one
untouched — in particular it never closes a prior model socket. -/
theorem tryConnectModel_sockets_ne (st : CoordState) (n : Nat) (o : DialOutcome)
    (i : Nat) (hi : i ≠ n) : (tryConnectModel st n o).sockets i = st.sockets i := by
  unfold tryConnectModel
  split
  · rfl
  · split
    · rfl
    · cases o with
      | failed => rfl
      | socket b => cases b <;> simp [wsSet, hi]

/-- At the dialed identifier, the table either keeps its old entry or gains
an open MODEL socket — never a telephony one. -/
theorem tryConnectModel_sockets_self (st : CoordState) (n : Nat) (o : DialOutcome) :
    (tryConnectModel st n o).sockets n = st.sockets n ∨
    (tryConnectModel st n o).sockets n = some ⟨Role.model, ReadyState.opened⟩ := by
  unfold tryConnectModel
  split
  · exact Or.inl rfl
  · split
    · exact Or.inl rfl
    · cases o with
      | failed => exact Or.inl rfl
      | socket b =>
          cases b with
          | true => exact Or.inr (by simp [wsSet])
          | false => exact Or.inl rfl

/-- The telephony-cleanup path clears the tracked telephony identifier. -/
theorem cleanupCallConnection_twilio (st : CoordState) :
    (cleanupCallConnection st).session.twilioConnId = none := by
  unfold cleanupCallConnection
  cases st.session.modelConnId with
  | none => rfl
  | some m =>
      cases st.sockets m with
      | none => rfl
      | some s0 => rfl

/-- The telephony-cleanup path only closes or removes sockets: any socket
still OPEN afterwards was already present, unchanged, before. -/
theorem cleanupCallConnection_sockets_open (st : CoordState) (i : Nat) (s : Sock)
    (h : (cleanupCallConnection st).sockets i = some s)
    (hr : s.ready = ReadyState.opened) : st.sockets i = some s := by
  unfold cleanupCallConnection at h
  cases hmc : st.session.modelConnId with
  | none =>
      simp only [hmc] at h
      exact h
  | some m =>
      simp only [hmc] at h
      by_cases him : i = m
      · subst him
        cases hsm : st.sockets i <;> simp [hsm, wsDelete] at h
      · cases hsm : st.sockets m <;> simp only [hsm] at h <;>
          simpa [wsDelete, wsCloseOne, him] using h

/-- Registering a telephony connection closes the socket of the previously
tracked telephony identifier (when some identifier was tracked). -/
theorem handleCallConnection_sockets_tracked (st : CoordState) (newId : Nat)
    (apiKey : String) (i : Nat) (hin : i ≠ newId)
    (htw : st.session.twilioConnId = some i) :
    (handleCallConnection st newId apiKey).sockets i =
      (st.sockets i).map (fun s0 => { s0 with ready := ReadyState.closed }) := by
  cases hsi : st.sockets i <;>
    simp [handleCallConnection, htw, wsSet, wsCloseOne, hin, hsi]

/-- Registering a telephony connection leaves every socket that is neither
the new one nor the previously tracked one untouched. -/
theorem handleCallConnection_sockets_other (st : CoordState) (newId : Nat)
    (apiKey : String) (i : Nat) (hin : i ≠ newId)
    (htw : st.session.twilioConnId ≠ some i) :
    (handleCallConnection st newId apiKey).sockets i = st.sockets i := by
  cases htw2 : st.session.twilioConnId with
  | none => simp [handleCallConnection, htw2, wsSet, hin]
  | some old =>
      have hio : i ≠ old := fun he => htw (he ▸ htw2)
      by_cases hon : old = newId
      · subst hon
        simp [handleCallConnection, htw2, wsSet, wsCloseOne, hin, hio]
      · cases hsold : st.sockets old with
        | none => simp [handleCallConnection, htw2, wsSet, wsCloseOne, hin, hio, hon, hsold]
        | some w => simp [handleCallConnection, htw2, wsSet, wsCloseOne, hin, hio, hon, hsold]

/-- Invariant over all interleavings: every OPEN telephony-role socket in a
reachable state is the tracked telephony connection, so at most one open
telephony socket exists at any instant. -/
theorem tryConnectModel_callSockTracked (st : CoordState) (n : Nat) (o : DialOutcome)
    (hfresh : st.sockets n = none) (ih : callSockTracked st) :
    callSockTracked (tryConnectModel st n o) := by
  intro i s hs hrole hready
  rw [tryConnectModel_twilio]
  by_cases hid : i = n
  · subst hid
    rcases tryConnectModel_sockets_self st i o with hcase | hcase
    · rw [hcase, hfresh] at hs
      exact Option.noConfusion hs
    · rw [hcase] at hs
      have hws := Option.some.inj hs
      rw [← hws] at hrole
      exact Role.noConfusion hrole
  · rw [tryConnectModel_sockets_ne st n o i hid] at hs
    exact ih i s hs hrole hready

/-- Invariant over all interleavings: every OPEN telephony-role socket in a
reachable state is the tracked telephony connection, so at most one open
telephony socket exists at any instant. -/
theorem reaches_callSockTracked {st : CoordState} (h : Reaches st) : callSockTracked st := by
  induction h with
  | init =>
      intro i s hs _ _
      exact Option.noConfusion hs
  | callConn newId apiKey hr hfresh ih =>
      rename_i st0
      intro i s hs hrole hready
      by_cases hin : i = newId
      · subst hin
        rfl
      · exfalso
        by_cases htw : st0.session.twilioConnId = some i
        · rw [handleCallConnection_sockets_tracked st0 newId apiKey i hin htw] at hs
          cases hsi : st0.sockets i with
          | none => rw [hsi] at hs; exact Option.noConfusion hs
          | some w =>
              rw [hsi] at hs
              have hws := Option.some.inj hs
              rw [← hws] at hready
              exact ReadyState.noConfusion hready
        · rw [handleCallConnection_sockets_other st0 newId apiKey i hin htw] at hs
          exact htw (ih i s hs hrole hready)
  | logsConn newId hr hfresh ih =>
      rename_i st0
      intro i s hs hrole hready
      by_cases hin : i = newId
      · subst hin
        simp [handleFrontendConnection, wsSet] at hs
        subst hs
        exact Role.noConfusion hrole
      · have hs2 : st0.sockets i = some s := by
          simpa [handleFrontendConnection, wsSet, hin] using hs
        exact ih i s hs2 hrole hready
  | twilioMsg e dialId dial hr hfresh hpend ih =>
      rename_i st0
      cases e with
      | start sid csid =>
          intro i s hs hrole hready
          have hs1 : (tryConnectModel
              { st0 with session := { st0.session with
                          streamSid := some sid, callSid := some csid,
                          latestMediaTimestamp := some 0, lastAssistantItem := none,
                          responseStartTimestamp := none } }
              dialId dial).sockets i = some s := hs
          exact tryConnectModel_callSockTracked
            { st0 with session := { st0.session with
                        streamSid := some sid, callSid := some csid,
                        latestMediaTimestamp := some 0, lastAssistantItem := none,
                        responseStartTimestamp := none } }
            dialId dial hfresh
            (fun j t hjs hjr hjrd => ih j t hjs hjr hjrd) i s hs1 hrole hready
      | media ts payload =>
          intro i s hs hrole hready
          simp only [handleTwilioMessage] at hs ⊢
          have hs2 : st0.sockets i = some s := by
            split at hs
            · exact hs
            · exact hs
          have hg := ih i s hs2 hrole hready
          split
          · exact hg
          · exact hg
      | closeEvent =>
          intro i s hs _ _
          exact Option.noConfusion hs
      | otherEvent =>
          intro i s hs hrole hready
          exact ih i s hs hrole hready
  | modelOpens id hr ih =>
      rename_i st0
      intro i s hs hrole hready
      by_cases hmem : id ∈ st0.pendingModelOpen
      · by_cases hii : i = id
        · subst hii
          simp [modelOpenEvt, hmem, wsSet] at hs
          subst hs
          exact Role.noConfusion hrole
        · have hs2 : st0.sockets i = some s := by
            simpa [modelOpenEvt, hmem, wsSet, hii] using hs
          have hg := ih i s hs2 hrole hready
          simpa [modelOpenEvt, hmem] using hg
      · have hs2 : st0.sockets i = some s := by
          simpa [modelOpenEvt, hmem] using hs
        have hg := ih i s hs2 hrole hready
        simpa [modelOpenEvt, hmem] using hg
  | sockClosed id hr ih =>
      rename_i stp
      intro i s hs hrole hready
      unfold socketClosedEvt at hs ⊢
      cases hsid : stp.sockets id with
      | none =>
          simp only [hsid] at hs ⊢
          by_cases hmem : id ∈ stp.pendingModelOpen
          · simp only [hmem, if_true] at hs ⊢
            exact ih i s hs hrole hready
          · simp only [hmem, if_false] at hs ⊢
            exact ih i s hs hrole hready
      | some s0 =>
          simp only [hsid] at hs ⊢
          cases hrole0 : s0.role with
          | call =>
              simp only [hrole0] at hs ⊢
              by_cases htr : stp.session.twilioConnId = some id
              · simp only [htr, if_pos] at hs ⊢
                exfalso
                have h1 : wsDelete stp.sockets id i = some s :=
                  cleanupCallConnection_sockets_open _ i s hs hready
                by_cases hii : i = id
                · subst hii
                  simp [wsDelete] at h1
                · have h2 : stp.sockets i = some s := by
                    simpa [wsDelete, hii] using h1
                  have hg := ih i s h2 hrole hready
                  rw [htr] at hg
                  exact hii (Option.some.inj hg).symm
              · simp only [htr, if_neg, if_false] at hs ⊢
                by_cases hii : i = id
                · subst hii
                  simp [wsDelete] at hs
                · have h2 : stp.sockets i = some s := by
                    simpa [wsDelete, hii] using hs
                  exact ih i s h2 hrole hready
          | logs =>
              simp only [hrole0] at hs ⊢
              by_cases hfr : stp.session.frontendConnId = some id
              · simp only [hfr, if_pos] at hs ⊢
                by_cases hii : i = id
                · subst hii
                  simp [wsDelete] at hs
                · have h2 : stp.sockets i = some s := by
                    simpa [wsDelete, hii] using hs
                  exact ih i s h2 hrole hready
              · simp only [hfr, if_neg, if_false] at hs ⊢
                by_cases hii : i = id
                · subst hii
                  simp [wsDelete] at hs
                · have h2 : stp.sockets i = some s := by
                    simpa [wsDelete, hii] using hs
                  exact ih i s h2 hrole hready
          | model =>
              simp only [hrole0] at hs ⊢
              by_cases hii : i = id
              · subst hii
                simp [wsDelete] at hs
              · have h2 : stp.sockets i = some s := by
                  simpa [wsDelete, hii] using hs
                exact ih i s h2 hrole hready
  | modelMsg fns parseArgs r2get raw hr ih =>
      rename_i stp
      intro i s hs hrole hready
      obtain ⟨h1, _h2, h3⟩ := onModelWsMessage_frame fns parseArgs r2get stp raw
      rw [h1] at hs
      rw [h3]
      exact ih i s hs hrole hready

/-! ## Claim C6 (corrected) -/

/-- C6 counterexample: a reachable interleaving in which a second model
connection is established while a prior one is tracked, the prior one is
never force-closed, and afterwards TWO open model sockets coexist in the
table: dial socket 2 while it is still connecting, redial socket 3 (the
table shows no open model socket, so `tryConnectModel` proceeds), then
socket 2's deferred `open` listener fires. -/
theorem c6_counterexample :
    Reaches dialTrace4
    ∧ dialTrace4.sockets 2 = some ⟨Role.model, ReadyState.opened⟩
    ∧ dialTrace4.sockets 3 = some ⟨Role.model, ReadyState.opened⟩
    ∧ dialTrace4.session.modelConnId = some 3
    ∧ dialTrace2.session.modelConnId = some 2 := by
  refine ⟨?_, by decide, by decide, by decide, by decide⟩
  exact Reaches.modelOpens 2
    (Reaches.twilioMsg (.start "SD1" "CA1") 3 (.socket true)
      (Reaches.twilioMsg (.start "SD1" "CA1") 2 (.socket false)
        (Reaches.callConn 1 "sk-test" Reaches.init (by decide))
        (by decide) (by decide))
      (by decide) (by decide))

/-- C6 amended: at most one telephony and at most one model connection
IDENTIFIER is tracked (single session fields), and for the telephony role
the claim holds fully — in every reachable state at most one open telephony
socket exists, and registering a new telephony connection force-closes and
replaces the tracked prior one.  For the model role it does not: dialing a
new model connection never closes any existing socket (it only replaces the
identifier), and it is a no-op only when the tracked model socket is
registered open — so two open model sockets can coexist, as the
counterexample trace shows. -/
theorem c6_amended :
    (∀ st : CoordState, Reaches st → ∀ i j si sj,
        st.sockets i = some si → si.role = Role.call → si.ready = ReadyState.opened →
        st.sockets j = some sj → sj.role = Role.call → sj.ready = ReadyState.opened →
        i = j)
    ∧ (∀ (st : CoordState) (old newId : Nat) (apiKey : String) (s0 : Sock),
        st.session.twilioConnId = some old → st.sockets old = some s0 → newId ≠ old →
        (handleCallConnection st newId apiKey).sockets old =
          some { s0 with ready := ReadyState.closed } ∧
        (handleCallConnection st newId apiKey).session.twilioConnId = some newId)
    ∧ (∀ (st : CoordState) (n : Nat) (o : DialOutcome) (i : Nat), i ≠ n →
        (tryConnectModel st n o).sockets i = st.sockets i)
    ∧ (∀ (st : CoordState) (n : Nat) (o : DialOutcome) (m : Nat),
        st.session.modelConnId = some m → isWsOpen st (some m) = true →
        tryConnectModel st n o = st) := by
  refine ⟨?_, ?_, ?_, ?_⟩
  · intro st hr i j si sj hi hri hrdi hj hrj hrdj
    have h1 := reaches_callSockTracked hr i si hi hri hrdi
    have h2 := reaches_callSockTracked hr j sj hj hrj hrdj
    rw [h1] at h2
    exact Option.some.inj h2
  · intro st old newId apiKey s0 htw hsock hne
    refine ⟨?_, rfl⟩
    rw [handleCallConnection_sockets_tracked st newId apiKey old (Ne.symm hne) htw, hsock]
    rfl
  · intro st n o i hi
    exact tryConnectModel_sockets_ne st n o i hi
  · intro st n o m hm hopen
    unfold tryConnectModel
    split
    · rfl
    · split
      · rfl
      · rename_i hcond
        exfalso
        apply hcond
        rw [hm]
        exact hopen

/-- C6 amended witness: the amended theorem applied at concrete inputs — the
one open telephony socket of a reached state, a telephony re-registration on
the mid-call fixture (socket 1 closed, identifier replaced by 7), a failed
dial leaving socket 1 untouched, and a dial with the tracked model socket
open being a no-op. -/
theorem c6_amended_witness :
    ((handleCallConnection stBase 7 "sk-test").sockets 1 =
        some ⟨Role.call, ReadyState.closed⟩ ∧
      (handleCallConnection stBase 7 "sk-test").session.twilioConnId = some 7)
    ∧ (tryConnectModel stBase 9 DialOutcome.failed).sockets 1 = stBase.sockets 1
    ∧ tryConnectModel stBase 9 (DialOutcome.socket true) = stBase
    ∧ 1 = 1 := by
  have h2 := c6_amended.2.1 stBase 1 7 "sk-test" ⟨Role.call, ReadyState.opened⟩
    (by decide) (by decide) (by decide)
  have h3 := c6_amended.2.2.1 stBase 9 DialOutcome.failed 1 (by decide)
  have h4 := c6_amended.2.2.2 stBase 9 (DialOutcome.socket true) 2 rfl (by decide)
  have h1 := c6_amended.1 dialTrace1
    (Reaches.callConn 1 "sk-test" Reaches.init (by decide)) 1 1
    ⟨Role.call, ReadyState.opened⟩ ⟨Role.call, ReadyState.opened⟩
    (by decide) rfl rfl (by decide) rfl rfl
  exact ⟨⟨h2.1, h2.2⟩, h3, h4, h1⟩

end TwilioRx
